import Mathlib

namespace MinecraftServer

/-!
Verification of the Minecraft server lifecycle stack.

The stack declares an ECS Fargate service whose desired count is toggled by
two inline Lambda handlers, a Step Functions start sequence
(StartTask → WaitForTask → GetIP → UpdateDNS → ServerReady) and stop sequence
(BackupWorld → StopTask → ServerStopped), an API handler dispatching on the
path action (start / stop / status), a get-IP handler with a bounded ECS
waiter, a backup handler computing a timestamped S3 key, and a server-size
configuration table.  Each handler below is a shallow embedding of the
corresponding inline Python code in
src/minecraft_server/minecraft_server_stack.py; cloud responses the handlers
consume (listed tasks, described task attachments, network-interface
associations, execution ARNs) are passed in as explicit environment values.
-/

/-- The ECS service state the scale handlers mutate: its desired count. -/
structure ServiceState where
  desiredCount : Nat
deriving DecidableEq, Repr

/-- Result payload returned by the start/stop task Lambda handlers. -/
structure ScaleResult where
  statusCode : Nat
  message : String
deriving DecidableEq, Repr

/-- `start_task_lambda` handler: `ecs.update_service(..., desiredCount=1)` then
returns `{'statusCode': 200, 'message': 'Server started'}`. -/
def start_task_handler (_s : ServiceState) : ServiceState × ScaleResult :=
  (⟨1⟩, ⟨200, "Server started"⟩)

/-- `stop_task_lambda` handler: `ecs.update_service(..., desiredCount=0)` then
returns `{'statusCode': 200, 'message': 'Server stopped'}`. -/
def stop_task_handler (_s : ServiceState) : ServiceState × ScaleResult :=
  (⟨0⟩, ⟨200, "Server stopped"⟩)

/-- A scale operation requested through the controllers. -/
inductive ScaleOp
  | start
  | stop
deriving DecidableEq, Repr

/-- Effect of one scale operation on the service state. -/
def applyOp (s : ServiceState) : ScaleOp → ServiceState
  | ScaleOp.start => (start_task_handler s).1
  | ScaleOp.stop => (stop_task_handler s).1

/-- Service state after a finite sequence of start/stop operations. -/
def runOps (s : ServiceState) (ops : List ScaleOp) : ServiceState :=
  ops.foldl applyOp s

/-- All states the service passes through while a sequence of scale
operations runs, the initial state included. -/
def opTrace (s : ServiceState) (ops : List ScaleOp) : List ServiceState :=
  List.scanl applyOp s ops

/-! ### Control API (`api_handler`) -/

/-- JSON body shapes the API handler serialises with `json.dumps`. -/
inductive ApiBody
  | messageArn (message : String) (executionArn : String)
  | errorBody (error : String)
  | statusOnly (status : String)
  | statusCount (status : String) (taskCount : Nat)
deriving DecidableEq, Repr

/-- An HTTP-style response from the API handler. -/
structure ApiResponse where
  statusCode : Nat
  body : ApiBody
deriving DecidableEq, Repr

/-- Input payload of a Step Functions execution started by the API handler. -/
inductive ExecInput
  | emptyObj
  | clusterTask (cluster : String) (taskArn : String)
deriving DecidableEq, Repr

/-- One `sfn.start_execution` call recorded as a side effect. -/
structure StartedExecution where
  stateMachineArn : String
  input : ExecInput
deriving DecidableEq, Repr

/-- Side effects of one API-handler invocation: whether `ecs.list_tasks` was
called, and which workflow executions were started. -/
structure ApiEffects where
  listedTasks : Bool
  startedExecutions : List StartedExecution
deriving DecidableEq, Repr

/-- Cloud environment the API handler reads: the ARNs baked into its code,
the task ARNs `ecs.list_tasks(..., desiredStatus='RUNNING')` would return,
and the execution ARN `sfn.start_execution` would answer with. -/
structure ApiEnv where
  startStateMachineArn : String
  stopStateMachineArn : String
  clusterName : String
  runningTaskArns : List String
  newExecutionArn : String
deriving DecidableEq, Repr

/-- `api_handler`: dispatches on the path action.  `start` starts the start
state machine with input `{}`; `stop` lists running tasks, answers 404 when
none and otherwise starts the stop state machine on the first task ARN;
`status` lists running tasks and reports stopped or running with a count;
anything else answers 400.  The Python reads the action via
`event.get('pathParameters', {}).get('action', '')`, so a missing action is
the empty string. -/
def api_handler (env : ApiEnv) (action : String) : ApiResponse × ApiEffects :=
  if action = "start" then
    (⟨200, ApiBody.messageArn "Server starting" env.newExecutionArn⟩,
     ⟨false, [⟨env.startStateMachineArn, ExecInput.emptyObj⟩]⟩)
  else if action = "stop" then
    match env.runningTaskArns with
    | [] =>
      (⟨404, ApiBody.errorBody "No running server found"⟩, ⟨true, []⟩)
    | taskArn :: _ =>
      (⟨200, ApiBody.messageArn "Server stopping" env.newExecutionArn⟩,
       ⟨true, [⟨env.stopStateMachineArn,
                ExecInput.clusterTask env.clusterName taskArn⟩]⟩)
  else if action = "status" then
    match env.runningTaskArns with
    | [] => (⟨200, ApiBody.statusOnly "stopped"⟩, ⟨true, []⟩)
    | l@(_ :: _) => (⟨200, ApiBody.statusCount "running" l.length⟩, ⟨true, []⟩)
  else
    (⟨400, ApiBody.errorBody "Invalid action. Use /start, /stop, or /status"⟩,
     ⟨false, []⟩)

/-! ### Stop workflow (`stop_definition`) -/

/-- States of the stop state machine, as declared:
`stop_definition = backup_step.next(stop_task_step).next(server_stopped)`. -/
inductive StopState
  | backupWorld
  | stopTask
  | serverStopped
deriving DecidableEq, Repr

/-- The linear chain of the stop state machine, in declaration order. -/
def stop_definition : List StopState :=
  [StopState.backupWorld, StopState.stopTask, StopState.serverStopped]

/-- Fault-injection environment for one stop-workflow execution: whether the
snapshot Lambda invocation completes, and whether the scale-down Lambda
invocation completes.  A step that fails or stalls past the machine timeout
produces no effect and ends the execution. -/
structure StopRunEnv where
  backupSucceeds : Bool
  stopSucceeds : Bool
deriving DecidableEq, Repr

/-- Effect of entering one stop-workflow state on the service: `none` means
the step fails or stalls so the execution ends there; only the StopTask step
mutates the service, through `stop_task_handler`. -/
def stopStepEffect (env : StopRunEnv) :
    StopState → ServiceState → Option ServiceState
  | StopState.backupWorld, svc => if env.backupSucceeds then some svc else none
  | StopState.stopTask, svc =>
      if env.stopSucceeds then some (stop_task_handler svc).1 else none
  | StopState.serverStopped, svc => some svc

/-- Run a linear chain of states: each entered state either completes and
hands its state to the next, or fails, ending the execution.  Returns the
list of states actually entered and the final service state. -/
def runChain (eff : StopState → ServiceState → Option ServiceState) :
    List StopState → ServiceState → List StopState × ServiceState
  | [], svc => ([], svc)
  | st :: rest, svc =>
    match eff st svc with
    | none => ([st], svc)
    | some svc1 =>
      let r := runChain eff rest svc1
      (st :: r.1, r.2)

/-- One execution of the stop state machine under fault injection. -/
def runStopDefinition (env : StopRunEnv) (svc : ServiceState) :
    List StopState × ServiceState :=
  runChain (stopStepEffect env) stop_definition svc

/-! ### Address Resolver (`get_ip_lambda`) -/

/-- A waiter retry policy: fixed delay in seconds and a fixed maximum number
of poll attempts. -/
structure WaiterConfig where
  delay : Nat
  maxAttempts : Nat
deriving DecidableEq, Repr

/-- The configuration the get-IP handler passes to the ECS waiter:
`WaiterConfig={'Delay': 6, 'MaxAttempts': 20}`. -/
def getIpWaiterConfig : WaiterConfig := ⟨6, 20⟩

/-- Outcome of a waiter run, carrying the number of poll attempts it made. -/
inductive WaiterOutcome
  | success (attemptsUsed : Nat)
  | failure (attemptsUsed : Nat)
deriving DecidableEq, Repr

/-- Bounded poll loop of the boto3 `tasks_running` waiter, modelled from its
contract: attempt `i` reads the task status; RUNNING ends the wait with
success, STOPPED ends it with failure at once, anything else retries after
the fixed delay until the attempt budget is spent, which is a failure. -/
def waiterLoop (statusAt : Nat → String) : Nat → Nat → WaiterOutcome
  | attempt, 0 => WaiterOutcome.failure attempt
  | attempt, fuel + 1 =>
    if statusAt attempt = "RUNNING" then WaiterOutcome.success (attempt + 1)
    else if statusAt attempt = "STOPPED" then WaiterOutcome.failure (attempt + 1)
    else waiterLoop statusAt (attempt + 1) fuel

/-- One run of the `tasks_running` waiter under a given retry policy. -/
def waitTasksRunning (statusAt : Nat → String) (cfg : WaiterConfig) :
    WaiterOutcome :=
  waiterLoop statusAt 0 cfg.maxAttempts

/-- Attempts made by a waiter run, whatever its outcome. -/
def WaiterOutcome.attempts : WaiterOutcome → Nat
  | WaiterOutcome.success n => n
  | WaiterOutcome.failure n => n

/-- One `{'name': ..., 'value': ...}` entry of an ECS attachment's details. -/
structure AttachmentDetail where
  name : String
  value : String
deriving DecidableEq, Repr

/-- One attachment of a described ECS task. -/
structure TaskAttachment where
  details : List AttachmentDetail
deriving DecidableEq, Repr

/-- The described task the handler reads: `response['tasks'][0]`. -/
structure TaskDesc where
  attachments : List TaskAttachment
deriving DecidableEq, Repr

/-- The handler's attachment scan: the inner loop takes the first
networkInterfaceId detail of an attachment (the `break` leaves only the
inner loop), and the outer loop keeps overwriting `eni_id`, so the last
attachment that has one wins. -/
def findEniId (task : TaskDesc) : Option String :=
  task.attachments.foldl
    (fun acc a =>
      match (a.details.find? (fun d => d.name = "networkInterfaceId")).map
          (fun d => d.value) with
      | some v => some v
      | none => acc)
    none

/-- Python truthiness of the `eni_id` variable: `None` and the empty string
are falsy. -/
def truthyEni : Option String → Bool
  | none => false
  | some s => !(s = "")

/-- Payload the get-IP handler returns once the waiter has succeeded. -/
inductive IpPayload
  | withIp (statusCode : Nat) (publicIp : String) (taskArn : String)
  | noIp (statusCode : Nat) (error : String)
deriving DecidableEq, Repr

/-- Cloud responses the get-IP handler consumes: the per-attempt task status
the waiter polls, the described task, and the `Association.PublicIp` of each
network interface (`none` when the interface has no association or no
public address). -/
structure EcsEnv where
  statusAt : Nat → String
  describedTask : TaskDesc
  publicIpAssoc : String → Option String

/-- `get_ip_lambda` handler: waits for the task to run (a waiter failure
raises, modelled as the error branch), scans the described task's
attachments for a network-interface id, and if one is found answers 200 with
`Association.PublicIp` defaulted to the empty string
(`.get('Association', {}).get('PublicIp', '')`); with no interface id it
answers the 500 no-IP-found payload. -/
def get_ip_handler (env : EcsEnv) (_cluster taskArn : String) :
    Except String IpPayload :=
  match waitTasksRunning env.statusAt getIpWaiterConfig with
  | WaiterOutcome.failure _ => Except.error "WaiterError"
  | WaiterOutcome.success _ =>
    let eniId := findEniId env.describedTask
    if truthyEni eniId then
      Except.ok (IpPayload.withIp 200
        ((env.publicIpAssoc (eniId.getD "")).getD "") taskArn)
    else
      Except.ok (IpPayload.noIp 500 "No IP found")

/-- A task description with one attachment carrying a network-interface id,
used to exhibit the handler's no-public-address behaviour. -/
def eniNoAssocTask : TaskDesc :=
  ⟨[⟨[⟨"networkInterfaceId", "eni-1"⟩]⟩]⟩

/-- An environment where the task runs at once and its network interface has
no public address associated. -/
def eniNoAssocEnv : EcsEnv :=
  ⟨fun _ => "RUNNING", eniNoAssocTask, fun _ => none⟩

/-! ### Snapshot Trigger (`backup_lambda`) -/

/-- Payload the backup handler returns. -/
structure BackupResult where
  statusCode : Nat
  backupKey : String
  timestamp : String
deriving DecidableEq, Repr

/-- `backup_lambda` handler: computes
`backup_key = f"backups/world-{timestamp}.tar.gz"` from the ISO-8601
rendering of the current time and returns it with status 200; no bytes are
transferred. -/
def backup_handler (_cluster _taskArn : String) (timestamp : String) :
    BackupResult :=
  ⟨200, "backups/world-" ++ timestamp ++ ".tar.gz", timestamp⟩

/-- Strip a known character list from the front of a key. -/
def dropPre : List Char → List Char → Option (List Char)
  | [], k => some k
  | _ :: _, [] => none
  | p :: ps, c :: cs => if p = c then dropPre ps cs else none

/-- Strip a known character-list suffix from the end of a key. -/
def dropSuf (s k : List Char) : Option (List Char) :=
  (dropPre s.reverse k.reverse).map List.reverse

/-- Parse a backup object key back into the timestamp it encodes: strip the
fixed front part and the fixed `.tar.gz` tail. -/
def parseBackupKey (key : String) : Option String :=
  match dropPre "backups/world-".data key.data with
  | none => none
  | some rest =>
    match dropSuf ".tar.gz".data rest with
    | none => none
    | some ts => some (String.mk ts)

/-! ### Stack construction (`MinecraftServerStack.__init__` sizing) -/

/-- One entry of the server sizing table. -/
structure ServerConfig where
  cpu : Nat
  memory : Nat
  description : String
deriving DecidableEq, Repr

/-- The `server_configs` dictionary. -/
def server_configs : List (String × ServerConfig) :=
  [("small", ⟨2048, 4096, "1-5 players"⟩),
   ("medium", ⟨2048, 8192, "5-10 players"⟩),
   ("large", ⟨4096, 16384, "10-20 players"⟩)]

/-- Python dictionary subscription `server_configs[server_size]`: a missing
key raises KeyError. -/
def lookupServerConfig (size : String) : Except String ServerConfig :=
  match server_configs.find? (fun p => p.1 = size) with
  | some p => Except.ok p.2
  | none => Except.error ("KeyError: " ++ size)

/-- The resources the constructor declares once sizing has succeeded, in
declaration order. -/
def declaredResources : List String :=
  ["MinecraftVPC", "MinecraftBackups", "MinecraftCluster",
   "TaskExecutionRole", "TaskRole", "MinecraftTask", "MinecraftSG",
   "MinecraftService", "StartTaskFunction", "GetIPFunction",
   "BackupFunction", "StopTaskFunction", "UpdateDNSFunction",
   "StartServerStateMachine", "StopServerStateMachine", "ApiHandler",
   "MinecraftApi", "BackupRule"]

/-- A constructed stack: the sizing it resolved and the resources it
declared. -/
structure DeclaredStack where
  server_size : String
  serverConfig : ServerConfig
  resources : List String
deriving DecidableEq, Repr

/-- Prelude of `MinecraftServerStack.__init__`:
`server_size = config.get("server_size", "small")` then
`server_config = server_configs[server_size]` — the subscription runs before
the first resource is declared, so a KeyError aborts construction with no
resource; on success every resource is declared. -/
def minecraftServerStackInit (serverSizeCtx : Option String) :
    Except String DeclaredStack :=
  let server_size := serverSizeCtx.getD "small"
  match lookupServerConfig server_size with
  | Except.error e => Except.error e
  | Except.ok sc => Except.ok ⟨server_size, sc, declaredResources⟩

/-! ### Start workflow (`start_definition`) -/

/-- A JSON value as threaded between the workflow states. -/
inductive JVal
  | null
  | str (s : String)
  | num (n : Nat)
  | obj (fields : List (String × JVal))

/-- Read a field of a JSON object; `none` on a missing key or a non-object. -/
def JVal.getField : JVal → String → Option JVal
  | JVal.obj fields, k => (fields.find? (fun p => p.1 = k)).map (fun p => p.2)
  | _, _ => none

/-- Set a key in an association list, overwriting an existing binding. -/
def setFieldList (k : String) (v : JVal) :
    List (String × JVal) → List (String × JVal)
  | [] => [(k, v)]
  | (k1, v1) :: rest =>
    if k1 = k then (k, v) :: rest else (k1, v1) :: setFieldList k v rest

/-- Set a field of a JSON object.  On a non-object the real engine fails the
execution; no theorem below exercises that case. -/
def JVal.setField : JVal → String → JVal → JVal
  | JVal.obj fields, k, v => JVal.obj (setFieldList k v fields)
  | j, _, _ => j

/-- Semantics of one `LambdaInvoke` state: the invocation result — an object
whose Payload field is the Lambda's returned payload — is placed at the
state's `result_path` field of the input, and when the state carries an
`output_path` of the form `$.<field>.Payload` the state's output is that
payload alone, otherwise it is the merged object. -/
def invokeWithPaths (payloadOf : JVal → JVal) (resultField : String)
    (pickPayload : Bool) (input : JVal) : JVal :=
  let result := JVal.obj [("Payload", payloadOf input)]
  let afterResult := input.setField resultField result
  if pickPayload then
    (((afterResult.getField resultField).getD JVal.null).getField
      "Payload").getD JVal.null
  else afterResult

/-- States of the start state machine, as declared:
`start_definition = start_task_step.next(wait_for_task).next(get_ip_step)
.next(update_dns_step).next(server_ready)`. -/
inductive StartState
  | startTask
  | waitForTask
  | getIP
  | updateDNS
  | serverReady
deriving DecidableEq, Repr

/-- The linear chain of the start state machine, in declaration order. -/
def start_definition : List StartState :=
  [StartState.startTask, StartState.waitForTask, StartState.getIP,
   StartState.updateDNS, StartState.serverReady]

/-- Transition of each start-machine state on the threaded JSON document:
StartTask and GetIP invoke their Lambdas with `result_path` `$.taskInfo`
resp. `$.ipInfo` and an `output_path` selecting the payload; WaitForTask is
a timed wait passing its input through; UpdateDNS invokes its Lambda with
`result_path` `$.dnsInfo` and no `output_path`; ServerReady succeeds with
its input. -/
def stepStart (startFn getIpFn dnsFn : JVal → JVal) :
    StartState → JVal → JVal
  | StartState.startTask, x => invokeWithPaths startFn "taskInfo" true x
  | StartState.waitForTask, x => x
  | StartState.getIP, x => invokeWithPaths getIpFn "ipInfo" true x
  | StartState.updateDNS, x => invokeWithPaths dnsFn "dnsInfo" false x
  | StartState.serverReady, x => x

/-- Execute a linear chain of states, each state's output handed to the next
as its input; records every state with its input and output. -/
def execChain (step : StartState → JVal → JVal) :
    List StartState → JVal → List (StartState × JVal × JVal)
  | [], _ => []
  | st :: rest, x => (st, x, step st x) :: execChain step rest (step st x)

/-- One execution of the start state machine, given the payload functions of
the three invoked Lambdas. -/
def startTrace (startFn getIpFn dnsFn : JVal → JVal) (input : JVal) :
    List (StartState × JVal × JVal) :=
  execChain (stepStart startFn getIpFn dnsFn) start_definition input

/-- The trace is threaded: the first state receives the execution input and
every later state receives the previous state's output. -/
def chainThreaded : JVal → List (StartState × JVal × JVal) → Prop
  | _, [] => True
  | x, (_, i, o) :: rest => i = x ∧ chainThreaded o rest

/-- Input received by the (first) occurrence of a state in a trace. -/
def traceInputOf (tr : List (StartState × JVal × JVal)) (s : StartState) :
    Option JVal :=
  (tr.find? (fun e => e.1 = s)).map (fun e => e.2.1)

/-- Output produced by the (first) occurrence of a state in a trace. -/
def traceOutputOf (tr : List (StartState × JVal × JVal)) (s : StartState) :
    Option JVal :=
  (tr.find? (fun e => e.1 = s)).map (fun e => e.2.2)

/-- The line `public_ip = event.get('publicIp', '')` of the
`update_dns_lambda` handler: the address the UpdateName step reads from its
event, the empty string when absent. -/
def update_dns_read_ip (event : JVal) : String :=
  match event.getField "publicIp" with
  | some (JVal.str s) => s
  | _ => ""

/-! ### Theorems -/

/-- Every state in the trace of a scale-operation sequence keeps the desired
count in the set 0 or 1, provided the initial state does. -/
theorem opTrace_mem_zero_or_one (s : ServiceState)
    (hs : s.desiredCount = 0 ∨ s.desiredCount = 1) (ops : List ScaleOp) :
    ∀ t ∈ opTrace s ops, t.desiredCount = 0 ∨ t.desiredCount = 1 := by
  induction ops generalizing s with
  | nil =>
    intro t ht
    simp only [opTrace, List.scanl] at ht
    simp only [List.mem_singleton] at ht
    exact ht ▸ hs
  | cons op rest ih =>
    intro t ht
    simp only [opTrace, List.scanl, List.mem_cons] at ht
    rcases ht with h | h
    · exact h ▸ hs
    · refine ih (applyOp s op) ?_ t h
      cases op
      · exact Or.inr rfl
      · exact Or.inl rfl

/-- The final desired count equals 1 when the last operation was a start,
else 0 (for a nonempty sequence). -/
theorem runOps_getLast (s : ServiceState) (ops : List ScaleOp) (hne : ops ≠ []) :
    (runOps s ops).desiredCount =
      (if ops.getLast? = some ScaleOp.start then 1 else 0) := by
  induction ops generalizing s with
  | nil => exact absurd rfl hne
  | cons op rest ih =>
    cases rest with
    | nil =>
      cases op <;> simp [runOps, applyOp, start_task_handler, stop_task_handler]
    | cons r rs =>
      have hstep : runOps s (op :: r :: rs) = runOps (applyOp s op) (r :: rs) := rfl
      have hlast : (op :: r :: rs).getLast? = (r :: rs).getLast? := by
        simp [List.getLast?]
      rw [hstep, hlast]
      exact ih (applyOp s op) (by simp)

/-- C1: over any finite sequence of start/stop scale operations the desired
count stays in the set 0 or 1 throughout; after a nonempty sequence it is 1
exactly when the last operation was a start, else 0; each operation is
idempotent, and both handlers answer status 200 whatever the current state,
in particular when the count already has the desired value. -/
theorem scale_sequence_settles (s : ServiceState)
    (hs : s.desiredCount = 0 ∨ s.desiredCount = 1)
    (ops : List ScaleOp) (hne : ops ≠ []) :
    (∀ t ∈ opTrace s ops, t.desiredCount = 0 ∨ t.desiredCount = 1) ∧
    (runOps s ops).desiredCount =
      (if ops.getLast? = some ScaleOp.start then 1 else 0) ∧
    (∀ t op, applyOp (applyOp t op) op = applyOp t op) ∧
    (∀ t : ServiceState,
      (start_task_handler t).2.statusCode = 200 ∧
      (stop_task_handler t).2.statusCode = 200) := by
  refine ⟨opTrace_mem_zero_or_one s hs ops, runOps_getLast s ops hne, ?_, ?_⟩
  · intro t op
    cases op <;> rfl
  · intro t
    exact ⟨rfl, rfl⟩

/-- Concrete instantiation of `scale_sequence_settles`: initial count 1,
sequence start, start, stop. -/
theorem scale_sequence_settles_witness :
    (∀ t ∈ opTrace ⟨1⟩ [ScaleOp.start, ScaleOp.start, ScaleOp.stop],
      t.desiredCount = 0 ∨ t.desiredCount = 1) ∧
    (runOps ⟨1⟩ [ScaleOp.start, ScaleOp.start, ScaleOp.stop]).desiredCount =
      (if [ScaleOp.start, ScaleOp.start, ScaleOp.stop].getLast? =
          some ScaleOp.start then 1 else 0) ∧
    (∀ t op, applyOp (applyOp t op) op = applyOp t op) ∧
    (∀ t : ServiceState,
      (start_task_handler t).2.statusCode = 200 ∧
      (stop_task_handler t).2.statusCode = 200) :=
  scale_sequence_settles ⟨1⟩ (Or.inr rfl)
    [ScaleOp.start, ScaleOp.start, ScaleOp.stop] (by simp)

/-- C2: the stop action with zero running task instances answers 404 with
the no-running-server error and starts no workflow; with at least one
running task instance it starts the stop workflow on the first listed task
ARN and answers 200 carrying the new execution ARN. -/
theorem api_stop_branch (env : ApiEnv) :
    (env.runningTaskArns = [] →
      api_handler env "stop" =
        (⟨404, ApiBody.errorBody "No running server found"⟩, ⟨true, []⟩)) ∧
    (∀ tFirst rest, env.runningTaskArns = tFirst :: rest →
      api_handler env "stop" =
        (⟨200, ApiBody.messageArn "Server stopping" env.newExecutionArn⟩,
         ⟨true, [⟨env.stopStateMachineArn,
                  ExecInput.clusterTask env.clusterName tFirst⟩]⟩)) := by
  constructor
  · intro h
    simp [api_handler, h]
  · intro tFirst rest h
    simp [api_handler, h]

/-- Concrete instantiations of `api_stop_branch`: an environment with no
running tasks, and one with two. -/
theorem api_stop_branch_witness :
    (api_handler ⟨"smA", "smB", "cl", [], "ex1"⟩ "stop" =
      (⟨404, ApiBody.errorBody "No running server found"⟩, ⟨true, []⟩)) ∧
    (api_handler ⟨"smA", "smB", "cl", ["t1", "t2"], "ex1"⟩ "stop" =
      (⟨200, ApiBody.messageArn "Server stopping" "ex1"⟩,
       ⟨true, [⟨"smB", ExecInput.clusterTask "cl" "t1"⟩]⟩)) :=
  ⟨(api_stop_branch ⟨"smA", "smB", "cl", [], "ex1"⟩).1 rfl,
   (api_stop_branch ⟨"smA", "smB", "cl", ["t1", "t2"], "ex1"⟩).2 "t1" ["t2"] rfl⟩

/-- C7: the status action answers 200 with body status-stopped when no task
instance is running and with body status-running plus the count of running
task ARNs otherwise, and starts no workflow in either case. -/
theorem api_status_branch (env : ApiEnv) :
    (env.runningTaskArns = [] →
      api_handler env "status" =
        (⟨200, ApiBody.statusOnly "stopped"⟩, ⟨true, []⟩)) ∧
    (env.runningTaskArns ≠ [] →
      api_handler env "status" =
        (⟨200, ApiBody.statusCount "running" env.runningTaskArns.length⟩,
         ⟨true, []⟩)) := by
  constructor
  · intro h
    simp [api_handler, h]
  · intro h
    cases henv : env.runningTaskArns with
    | nil => exact absurd henv h
    | cons a l => simp [api_handler, henv]

/-- Concrete instantiations of `api_status_branch`: zero and three running
task instances. -/
theorem api_status_branch_witness :
    (api_handler ⟨"smA", "smB", "cl", [], "ex1"⟩ "status" =
      (⟨200, ApiBody.statusOnly "stopped"⟩, ⟨true, []⟩)) ∧
    (api_handler ⟨"smA", "smB", "cl", ["t1", "t2", "t3"], "ex1"⟩ "status" =
      (⟨200, ApiBody.statusCount "running" 3⟩, ⟨true, []⟩)) :=
  ⟨(api_status_branch ⟨"smA", "smB", "cl", [], "ex1"⟩).1 rfl,
   (api_status_branch ⟨"smA", "smB", "cl", ["t1", "t2", "t3"], "ex1"⟩).2
     (by simp)⟩

/-- C8: any action other than start, stop and status — the empty string of a
missing action included — answers 400 with the invalid-action error, calls
no task lookup and starts no workflow. -/
theorem api_invalid_action (env : ApiEnv) (action : String)
    (h1 : action ≠ "start") (h2 : action ≠ "stop") (h3 : action ≠ "status") :
    api_handler env action =
      (⟨400, ApiBody.errorBody "Invalid action. Use /start, /stop, or /status"⟩,
       ⟨false, []⟩) := by
  simp [api_handler, h1, h2, h3]

/-- Concrete instantiation of `api_invalid_action` at the empty action of a
request with no path parameter. -/
theorem api_invalid_action_witness :
    api_handler ⟨"smA", "smB", "cl", ["t1"], "ex1"⟩ "" =
      (⟨400, ApiBody.errorBody "Invalid action. Use /start, /stop, or /status"⟩,
       ⟨false, []⟩) :=
  api_invalid_action ⟨"smA", "smB", "cl", ["t1"], "ex1"⟩ ""
    (by decide) (by decide) (by decide)

/-- C3: in the declared stop chain the snapshot state strictly precedes the
scale-down state; whenever the snapshot step fails or stalls, the scale-down
state is never entered and the desired count is left untouched; and in every
execution that does enter the scale-down state, the snapshot step completed
first (it appears earlier in the entered-state list). -/
theorem stop_snapshot_precedes_scaledown (env : StopRunEnv) (svc : ServiceState) :
    stop_definition.indexOf StopState.backupWorld <
      stop_definition.indexOf StopState.stopTask ∧
    (env.backupSucceeds = false →
      (runStopDefinition env svc).1 = [StopState.backupWorld] ∧
      StopState.stopTask ∉ (runStopDefinition env svc).1 ∧
      (runStopDefinition env svc).2 = svc) ∧
    (StopState.stopTask ∈ (runStopDefinition env svc).1 →
      env.backupSucceeds = true ∧
      (runStopDefinition env svc).1.indexOf StopState.backupWorld <
        (runStopDefinition env svc).1.indexOf StopState.stopTask) := by
  refine ⟨by decide, ?_, ?_⟩
  · intro h
    refine ⟨?_, ?_, ?_⟩ <;>
      simp [runStopDefinition, runChain, stop_definition, stopStepEffect, h]
  · intro hmem
    rcases hb : env.backupSucceeds with _ | _
    · exfalso
      simp [runStopDefinition, runChain, stop_definition, stopStepEffect,
        hb] at hmem
    · refine ⟨rfl, ?_⟩
      rcases hs : env.stopSucceeds with _ | _ <;>
        simp [runStopDefinition, runChain, stop_definition, stopStepEffect,
          hb, hs]

/-- Concrete instantiation of `stop_snapshot_precedes_scaledown` with the
snapshot step failing on a running service. -/
theorem stop_snapshot_precedes_scaledown_witness :
    (runStopDefinition ⟨false, true⟩ ⟨1⟩).1 = [StopState.backupWorld] ∧
    StopState.stopTask ∉ (runStopDefinition ⟨false, true⟩ ⟨1⟩).1 ∧
    (runStopDefinition ⟨false, true⟩ ⟨1⟩).2 = (⟨1⟩ : ServiceState) :=
  (stop_snapshot_precedes_scaledown ⟨false, true⟩ ⟨1⟩).2.1 rfl

/-- The waiter loop never makes more polls than its fuel allows, counting
from the starting attempt. -/
theorem waiterLoop_attempts_le (statusAt : Nat → String) (start fuel : Nat) :
    (waiterLoop statusAt start fuel).attempts ≤ start + fuel := by
  induction fuel generalizing start with
  | zero => simp [waiterLoop, WaiterOutcome.attempts]
  | succ n ih =>
    have hstep : waiterLoop statusAt start (n + 1) =
        if statusAt start = "RUNNING" then WaiterOutcome.success (start + 1)
        else if statusAt start = "STOPPED" then
          WaiterOutcome.failure (start + 1)
        else waiterLoop statusAt (start + 1) n := rfl
    rw [hstep]
    split_ifs with h1 h2
    · simp only [WaiterOutcome.attempts]
      omega
    · simp only [WaiterOutcome.attempts]
      omega
    · have := ih (start + 1)
      omega

/-- On a status stream that never reads RUNNING, the waiter loop ends in a
failure outcome. -/
theorem waiterLoop_never_running (statusAt : Nat → String)
    (h : ∀ i, statusAt i ≠ "RUNNING") (start fuel : Nat) :
    ∃ n, waiterLoop statusAt start fuel = WaiterOutcome.failure n := by
  induction fuel generalizing start with
  | zero => exact ⟨start, rfl⟩
  | succ m ih =>
    by_cases h2 : statusAt start = "STOPPED"
    · exact ⟨start + 1, by simp [waiterLoop, h start, h2]⟩
    · obtain ⟨n, hn⟩ := ih (start + 1)
      exact ⟨n, by simp [waiterLoop, h start, h2, hn]⟩

/-- C5: against a task that never reaches the RUNNING status, the get-IP
waiter — configured with a fixed 6-second delay and a fixed budget of 20
attempts — ends in a failure outcome after at most 20 polls; it cannot block
past its attempt budget. -/
theorem waiter_bounded_failure (statusAt : Nat → String)
    (h : ∀ i, statusAt i ≠ "RUNNING") :
    (∃ n, waitTasksRunning statusAt getIpWaiterConfig =
       WaiterOutcome.failure n ∧ n ≤ 20) ∧
    getIpWaiterConfig.delay = 6 ∧ getIpWaiterConfig.maxAttempts = 20 := by
  obtain ⟨n, hn⟩ := waiterLoop_never_running statusAt h 0 20
  refine ⟨⟨n, hn, ?_⟩, rfl, rfl⟩
  have h2 : (WaiterOutcome.failure n).attempts ≤ 0 + 20 := by
    rw [← hn]
    exact waiterLoop_attempts_le statusAt 0 20
  simpa [WaiterOutcome.attempts] using h2

/-- Concrete instantiation of `waiter_bounded_failure` on a task stuck in
the PENDING status forever. -/
theorem waiter_bounded_failure_witness :
    (∃ n, waitTasksRunning (fun _ => "PENDING") getIpWaiterConfig =
       WaiterOutcome.failure n ∧ n ≤ 20) ∧
    getIpWaiterConfig.delay = 6 ∧ getIpWaiterConfig.maxAttempts = 20 :=
  waiter_bounded_failure (fun _ => "PENDING")
    (by
      intro i
      show "PENDING" ≠ "RUNNING"
      decide)

/-- C4 as stated is false: on a running task whose interface has no public
address, the handler answers 200 with an empty address, not the 500
no-IP-found payload. -/
theorem get_ip_no_public_address_counterexample :
    findEniId eniNoAssocEnv.describedTask = some "eni-1" ∧
    eniNoAssocEnv.publicIpAssoc "eni-1" = none ∧
    get_ip_handler eniNoAssocEnv "cluster" "task-1" =
      Except.ok (IpPayload.withIp 200 "" "task-1") ∧
    get_ip_handler eniNoAssocEnv "cluster" "task-1" ≠
      Except.ok (IpPayload.noIp 500 "No IP found") := by
  refine ⟨rfl, rfl, rfl, ?_⟩
  intro h
  have h3 : (Except.ok (IpPayload.withIp 200 "" "task-1") :
      Except String IpPayload) = Except.ok (IpPayload.noIp 500 "No IP found") :=
    calc (Except.ok (IpPayload.withIp 200 "" "task-1") :
          Except String IpPayload)
        = get_ip_handler eniNoAssocEnv "cluster" "task-1" := rfl
      _ = Except.ok (IpPayload.noIp 500 "No IP found") := h
  exact absurd (Except.ok.inj h3) (by decide)

/-- C4 amended: once the task is running, the handler answers the 500
no-IP-found payload in the happy-path shape — raising nothing — exactly when
no truthy network-interface id is found; when an interface id is present it
answers 200 with that interface's associated public address, the public
address defaulting to the empty string when no association is present. -/
theorem get_ip_error_shape (env : EcsEnv) (cluster taskArn : String)
    (hrun : ∃ k, waitTasksRunning env.statusAt getIpWaiterConfig =
      WaiterOutcome.success k) :
    (truthyEni (findEniId env.describedTask) = false →
      get_ip_handler env cluster taskArn =
        Except.ok (IpPayload.noIp 500 "No IP found")) ∧
    (∀ eni ip, findEniId env.describedTask = some eni → eni ≠ "" →
      env.publicIpAssoc eni = some ip →
      get_ip_handler env cluster taskArn =
        Except.ok (IpPayload.withIp 200 ip taskArn)) := by
  obtain ⟨k, hk⟩ := hrun
  constructor
  · intro h
    simp [get_ip_handler, hk, h]
  · intro eni ip heni hne hip
    have htruthy : truthyEni (some eni) = true := by
      simp [truthyEni, hne]
    simp [get_ip_handler, hk, heni, htruthy, hip]

/-- Concrete instantiation of `get_ip_error_shape`: a running task carrying
an interface with public address 203.0.113.7. -/
theorem get_ip_error_shape_witness :
    get_ip_handler ⟨fun _ => "RUNNING", eniNoAssocTask,
        fun _ => some "203.0.113.7"⟩ "cl" "task-9" =
      Except.ok (IpPayload.withIp 200 "203.0.113.7" "task-9") :=
  (get_ip_error_shape ⟨fun _ => "RUNNING", eniNoAssocTask,
      fun _ => some "203.0.113.7"⟩ "cl" "task-9" ⟨1, by decide⟩).2
    "eni-1" "203.0.113.7" rfl (by decide) rfl

/-- Stripping a front part it just prepended recovers the rest. -/
theorem dropPre_append (p t : List Char) : dropPre p (p ++ t) = some t := by
  induction p with
  | nil => rfl
  | cons c cs ih => simp [dropPre, ih]

/-- Stripping a suffix it just appended recovers the front. -/
theorem dropSuf_append (s t : List Char) : dropSuf s (t ++ s) = some t := by
  simp [dropSuf, List.reverse_append, dropPre_append]

/-- C9: the key the backup handler computes is exactly the fixed front part,
the ISO-8601 timestamp, then `.tar.gz`; parsing any such key recovers the
very timestamp it was derived from, and the handler reports it with
status 200. -/
theorem backup_key_round_trip (cluster taskArn timestamp : String) :
    (backup_handler cluster taskArn timestamp).backupKey =
      "backups/world-" ++ timestamp ++ ".tar.gz" ∧
    parseBackupKey (backup_handler cluster taskArn timestamp).backupKey =
      some timestamp ∧
    (backup_handler cluster taskArn timestamp).statusCode = 200 ∧
    (backup_handler cluster taskArn timestamp).timestamp = timestamp := by
  refine ⟨rfl, ?_, rfl, rfl⟩
  show parseBackupKey ("backups/world-" ++ timestamp ++ ".tar.gz") =
    some timestamp
  have hdata : ("backups/world-" ++ timestamp ++ ".tar.gz").data =
      "backups/world-".data ++ (timestamp.data ++ ".tar.gz".data) := by
    simp [String.data_append]
  simp only [parseBackupKey, hdata, dropPre_append, dropSuf_append]

/-- C10: with a context server_size outside small / medium / large the
constructor fails with a key-lookup error and declares no resource — there
is no fallback sizing; with no server_size in the context it defaults to
small and succeeds. -/
theorem stack_init_sizing (s : String)
    (h1 : s ≠ "small") (h2 : s ≠ "medium") (h3 : s ≠ "large") :
    minecraftServerStackInit (some s) = Except.error ("KeyError: " ++ s) ∧
    (∀ st, minecraftServerStackInit (some s) ≠ Except.ok st) ∧
    minecraftServerStackInit none =
      Except.ok ⟨"small", ⟨2048, 4096, "1-5 players"⟩, declaredResources⟩ := by
  have hfind : server_configs.find? (fun p => p.1 = s) = none := by
    simp [server_configs, List.find?, Ne.symm h1, Ne.symm h2, Ne.symm h3]
  have herr : minecraftServerStackInit (some s) =
      Except.error ("KeyError: " ++ s) := by
    simp [minecraftServerStackInit, lookupServerConfig, hfind]
  refine ⟨herr, ?_, rfl⟩
  intro st hok
  rw [herr] at hok
  exact Except.noConfusion hok

/-- Concrete instantiation of `stack_init_sizing` at the unrecognized size
huge. -/
theorem stack_init_sizing_witness :
    minecraftServerStackInit (some "huge") =
      Except.error ("KeyError: " ++ "huge") ∧
    (∀ st, minecraftServerStackInit (some "huge") ≠ Except.ok st) ∧
    minecraftServerStackInit none =
      Except.ok ⟨"small", ⟨2048, 4096, "1-5 players"⟩, declaredResources⟩ :=
  stack_init_sizing "huge" (by decide) (by decide) (by decide)

/-- C6: every start execution runs exactly StartTask, WaitForTask, GetIP,
UpdateDNS, ServerReady in that order with no branching; each state's output
is the next state's input; and when the ResolveAddress payload carries a
public address, the UpdateName step receives GetIP's output unchanged and
its handler reads exactly that address from it. -/
theorem start_chain_threads (startFn getIpFn dnsFn : JVal → JVal)
    (input : JVal) (ip : String)
    (h : (traceOutputOf (startTrace startFn getIpFn dnsFn input)
        StartState.getIP).bind (fun v => v.getField "publicIp") =
      some (JVal.str ip)) :
    ((startTrace startFn getIpFn dnsFn input).map (fun e => e.1) =
      start_definition) ∧
    chainThreaded input (startTrace startFn getIpFn dnsFn input) ∧
    (traceInputOf (startTrace startFn getIpFn dnsFn input)
        StartState.updateDNS =
      traceOutputOf (startTrace startFn getIpFn dnsFn input)
        StartState.getIP) ∧
    ((traceInputOf (startTrace startFn getIpFn dnsFn input)
        StartState.updateDNS).map update_dns_read_ip = some ip) := by
  refine ⟨rfl, ⟨rfl, rfl, rfl, rfl, rfl, trivial⟩, rfl, ?_⟩
  have h2 : (invokeWithPaths getIpFn "ipInfo" true
      (invokeWithPaths startFn "taskInfo" true input)).getField "publicIp" =
      some (JVal.str ip) := h
  show (some (invokeWithPaths getIpFn "ipInfo" true
      (invokeWithPaths startFn "taskInfo" true input))).map
    update_dns_read_ip = some ip
  simp [update_dns_read_ip, h2]

/-- Concrete instantiation of `start_chain_threads`: the GetIP Lambda
answers a payload whose publicIp is 198.51.100.4. -/
theorem start_chain_threads_witness :
    ((startTrace (fun _ => JVal.obj [])
        (fun _ => JVal.obj [("publicIp", JVal.str "198.51.100.4")])
        (fun _ => JVal.null) (JVal.obj [])).map (fun e => e.1) =
      start_definition) ∧
    chainThreaded (JVal.obj [])
      (startTrace (fun _ => JVal.obj [])
        (fun _ => JVal.obj [("publicIp", JVal.str "198.51.100.4")])
        (fun _ => JVal.null) (JVal.obj [])) ∧
    (traceInputOf (startTrace (fun _ => JVal.obj [])
        (fun _ => JVal.obj [("publicIp", JVal.str "198.51.100.4")])
        (fun _ => JVal.null) (JVal.obj [])) StartState.updateDNS =
      traceOutputOf (startTrace (fun _ => JVal.obj [])
        (fun _ => JVal.obj [("publicIp", JVal.str "198.51.100.4")])
        (fun _ => JVal.null) (JVal.obj [])) StartState.getIP) ∧
    ((traceInputOf (startTrace (fun _ => JVal.obj [])
        (fun _ => JVal.obj [("publicIp", JVal.str "198.51.100.4")])
        (fun _ => JVal.null) (JVal.obj [])) StartState.updateDNS).map
      update_dns_read_ip = some "198.51.100.4") :=
  start_chain_threads (fun _ => JVal.obj [])
    (fun _ => JVal.obj [("publicIp", JVal.str "198.51.100.4")])
    (fun _ => JVal.null) (JVal.obj []) "198.51.100.4" rfl

end MinecraftServer
